import Mathlib

/-!
Verification of the particle-sphere simulation core of this repository
(src/js/ParticleSphere.js).

The JavaScript class `ParticleSphere` is shallowly embedded over the reals:

* `Vec3` models `THREE.Vector3` (the few THREE helpers the class calls —
  `lerpVectors`, `lerp`, `distanceTo`, `normalize`, `Ray.intersectPlane` —
  are reproduced from the THREE.js sources, since the library itself is not
  part of this repository);
* `Particle` models one particle mesh together with its `userData` record
  and the per-particle material state the update loop touches;
* `updateParticle` is the body of the `forEach` in
  `ParticleSphere.updateParticles` for one particle;
* `SphereState` models the fields of the class instance, with the DOM event
  listener registries made explicit, and `setMorphValue`,
  `setParticleCount`, `createParticles`, `recreateParticles`, `onMouseMove`,
  `setupEventListeners` and `dispose` translated one-to-one.
-/

open Classical

/-- 3D vector over ℝ, modelling `THREE.Vector3`. -/
@[ext]
structure Vec3 where
  x : ℝ
  y : ℝ
  z : ℝ

instance : Add Vec3 := ⟨fun a b => ⟨a.x + b.x, a.y + b.y, a.z + b.z⟩⟩

instance : Sub Vec3 := ⟨fun a b => ⟨a.x - b.x, a.y - b.y, a.z - b.z⟩⟩

instance : SMul ℝ Vec3 := ⟨fun c v => ⟨c * v.x, c * v.y, c * v.z⟩⟩

instance : Zero Vec3 := ⟨⟨0, 0, 0⟩⟩

/-- `THREE.Vector3.lerpVectors(a, b, t)` (and equally `a.lerp(b, t)`):
per-axis `a + (b - a) * t`. -/
def lerp3 (a b : Vec3) (t : ℝ) : Vec3 :=
  ⟨a.x + (b.x - a.x) * t, a.y + (b.y - a.y) * t, a.z + (b.z - a.z) * t⟩

/-- `THREE.Vector3.dot`. -/
def dot3 (a b : Vec3) : ℝ := a.x * b.x + a.y * b.y + a.z * b.z

/-- `THREE.Vector3.length`. -/
noncomputable def norm3 (v : Vec3) : ℝ := Real.sqrt (v.x ^ 2 + v.y ^ 2 + v.z ^ 2)

/-- `THREE.Vector3.distanceTo`. -/
noncomputable def dist3 (a b : Vec3) : ℝ := norm3 (a - b)

/-- The scalar `THREE.Vector3.normalize` divides by: `this.length() || 1`
(JavaScript `||` replaces a zero length by `1`). -/
noncomputable def normDivisor (v : Vec3) : ℝ :=
  if norm3 v = 0 then 1 else norm3 v

/-- `THREE.Vector3.normalize()`, i.e. `divideScalar(length() || 1)`, where
`divideScalar(s)` is `multiplyScalar(1 / s)`. -/
noncomputable def normalize3 (v : Vec3) : Vec3 := (1 / normDivisor v) • v

/-- The repulsion falloff computed in `updateParticles`:
`(this.interactionRadius - distanceToMouse) / this.interactionRadius`. -/
noncomputable def repulsionStrength (radius d : ℝ) : ℝ := (radius - d) / radius

/-- The simulation parameters of the `ParticleSphere` instance that the
per-frame update and the particle creation read. -/
structure Config where
  particleCount : ℕ
  particleSize : ℝ
  sphereRadius : ℝ
  scatterRadius : ℝ
  rotationSpeed : ℝ
  morphValue : ℝ
  interactionRadius : ℝ
  interactionStrength : ℝ

/-- One particle: its mesh `position`, the `userData` record created in
`createParticles`, and the per-particle material/scale state written by
`updateParticles`. -/
structure Particle where
  position : Vec3
  originalPosition : Vec3
  scatteredPosition : Vec3
  targetPosition : Vec3
  velocity : Vec3
  isInteracting : Bool
  interactionStartTime : ℝ
  scale : ℝ
  emissiveIntensity : ℝ
  emissiveColor : ℕ

/-- The target position computed for one particle in `updateParticles`:
the morph blend `lerpVectors(originalPosition, scatteredPosition, morphValue)`,
plus, when the pointer is near and the particle is within the interaction
radius, the repulsion offset
`normalize(position - mousePosition) * (strength * interactionStrength)`. -/
noncomputable def stepTarget (cfg : Config) (near : Bool) (mouse : Vec3) (p : Particle) :
    Vec3 :=
  let base := lerp3 p.originalPosition p.scatteredPosition cfg.morphValue
  if near = true ∧ dist3 p.position mouse < cfg.interactionRadius then
    base +
      (repulsionStrength cfg.interactionRadius (dist3 p.position mouse) *
          cfg.interactionStrength) • normalize3 (p.position - mouse)
  else base

/-- The body of the `forEach` in `ParticleSphere.updateParticles`, for one
particle: target computation, interaction flags, the `lerp(target, 0.05)`
smoothing, and the appearance update. -/
noncomputable def updateParticle (cfg : Config) (near : Bool) (mouse : Vec3) (time : ℝ)
    (p : Particle) : Particle :=
  let isInt : Bool :=
    if near then
      (if dist3 p.position mouse < cfg.interactionRadius then true else p.isInteracting)
    else false
  let startT : ℝ :=
    if near = true ∧ dist3 p.position mouse < cfg.interactionRadius then time
    else p.interactionStartTime
  let newPos := lerp3 p.position (stepTarget cfg near mouse p) (1 / 20)
  if isInt then
    let pulse := Real.sin ((time - startT) * 10) * (1 / 2) + 1 / 2
    { p with
      position := newPos, isInteracting := isInt, interactionStartTime := startT,
      emissiveColor := 0x4fc3f7, emissiveIntensity := pulse * (1 / 2),
      scale := 1 + pulse * (3 / 10) }
  else
    { p with
      position := newPos, isInteracting := isInt, interactionStartTime := startT,
      emissiveIntensity := 1 / 5, scale := 1 }

/-- The simulation parameter values assigned in the `ParticleSphere`
constructor (`particleCount = 500`, `particleSize = 0.05`, `sphereRadius = 2`,
`scatterRadius = 8`, `rotationSpeed = 0.5`, `morphValue = 0`,
`interactionRadius = 1.5`, `interactionStrength = 0.3`). -/
noncomputable def defaultConfig : Config where
  particleCount := 500
  particleSize := 1 / 20
  sphereRadius := 2
  scatterRadius := 8
  rotationSpeed := 1 / 2
  morphValue := 0
  interactionRadius := 3 / 2
  interactionStrength := 3 / 10

/-- A concrete particle state used to instantiate the general theorems. -/
noncomputable def sampleParticle : Particle where
  position := ⟨1, 0, 0⟩
  originalPosition := ⟨0, 1, 0⟩
  scatteredPosition := ⟨4, 0, 0⟩
  targetPosition := ⟨0, 1, 0⟩
  velocity := 0
  isInteracting := false
  interactionStartTime := 0
  scale := 1
  emissiveIntensity := 1
  emissiveColor := 0x1a4a5e

/-- A particle that a previous frame marked interacting
(`isInteracting = true`, `interactionStartTime = 0`), sitting at distance 1
from the origin. -/
noncomputable def interactingParticle : Particle where
  position := ⟨1, 0, 0⟩
  originalPosition := ⟨0, 1, 0⟩
  scatteredPosition := ⟨4, 0, 0⟩
  targetPosition := ⟨0, 1, 0⟩
  velocity := 0
  isInteracting := true
  interactionStartTime := 0
  scale := 1
  emissiveIntensity := 1
  emissiveColor := 0x1a4a5e

/-- A particle that a previous frame marked interacting, now at distance 5
from the origin — far outside the default interaction radius 1.5. -/
noncomputable def farParticle : Particle where
  position := ⟨5, 0, 0⟩
  originalPosition := ⟨0, 1, 0⟩
  scatteredPosition := ⟨4, 0, 0⟩
  targetPosition := ⟨0, 1, 0⟩
  velocity := 0
  isInteracting := true
  interactionStartTime := 0
  scale := 1
  emissiveIntensity := 1
  emissiveColor := 0x1a4a5e

/-- The event handler functions the class touches. `mouseMoveWrapper` and
`resizeWrapper` are the two anonymous arrow functions registered in
`setupEventListeners`; `onWindowResizeMethod` is the method reference
`this.onWindowResize` that `dispose` passes to `removeEventListener`.
Distinct constructors model distinct function identities. -/
inductive Handler where
  | mouseMoveWrapper
  | resizeWrapper
  | onWindowResizeMethod
deriving DecidableEq

/-- The `ParticleSphere` instance state: simulation parameters, the particle
store, the cached pointer intersection and near flag, the DOM listener
registries of the canvas and of the window, and the lifecycle flags. -/
structure SphereState where
  config : Config
  particles : List Particle
  mousePosition : Vec3
  isMouseNear : Bool
  canvasListeners : List Handler
  windowListeners : List Handler
  rendererDisposed : Bool
  controlsDisposed : Bool
  animationScheduled : Bool

/-- The deterministic sphere placement computed in the `createParticles`
loop: `phi = acos(-1 + 2*i/count)`, `theta = sqrt(count*π) * phi`, then
spherical-to-Cartesian scaled by `radius`. -/
noncomputable def generateSpherePosition (count : ℕ) (radius : ℝ) (i : ℕ) : Vec3 :=
  let phi := Real.arccos (-1 + 2 * i / count)
  let theta := Real.sqrt (count * Real.pi) * phi
  ⟨radius * Real.cos theta * Real.sin phi,
   radius * Real.sin theta * Real.sin phi,
   radius * Real.cos phi⟩

/-- `getScatteredPosition`, with the three `Math.random()` draws made
explicit inputs `u1 u2 u3`. -/
noncomputable def getScatteredPosition (scatterRadius u1 u2 u3 : ℝ) : Vec3 :=
  let theta := u1 * Real.pi * 2
  let phi := Real.arccos (u2 * 2 - 1)
  let radius := scatterRadius * (1 / 2 + u3 * (1 / 2))
  ⟨radius * Real.sin phi * Real.cos theta,
   radius * Real.sin phi * Real.sin theta,
   radius * Real.cos phi⟩

/-- One particle as built in the `createParticles` loop at index `i`,
drawing its scattered position's randoms from `rand (3*i) .. rand (3*i+2)`:
mesh and `userData` positions from the sphere placement, interaction state
cleared, material emissive 0x1a4a5e at the default intensity, scale 1. -/
noncomputable def mkParticle (cfg : Config) (rand : ℕ → ℝ) (i : ℕ) : Particle where
  position := generateSpherePosition cfg.particleCount cfg.sphereRadius i
  originalPosition := generateSpherePosition cfg.particleCount cfg.sphereRadius i
  scatteredPosition := getScatteredPosition cfg.scatterRadius (rand (3 * i))
    (rand (3 * i + 1)) (rand (3 * i + 2))
  targetPosition := generateSpherePosition cfg.particleCount cfg.sphereRadius i
  velocity := 0
  isInteracting := false
  interactionStartTime := 0
  scale := 1
  emissiveIntensity := 1
  emissiveColor := 0x1a4a5e

/-- `createParticles`: pushes `particleCount` freshly generated particles
onto the store. -/
noncomputable def createParticles (s : SphereState) (rand : ℕ → ℝ) : SphereState :=
  { s with particles :=
      s.particles ++ (List.range s.config.particleCount).map (mkParticle s.config rand) }

/-- `recreateParticles`: removes every existing particle from the store,
then runs `createParticles`. -/
noncomputable def recreateParticles (s : SphereState) (rand : ℕ → ℝ) : SphereState :=
  createParticles { s with particles := [] } rand

/-- `setParticleCount(count)`: stores the new count and recreates the
particle store. -/
noncomputable def setParticleCount (count : ℕ) (s : SphereState) (rand : ℕ → ℝ) :
    SphereState :=
  recreateParticles { s with config := { s.config with particleCount := count } } rand

/-- `setMorphValue(value)`: `this.morphValue = Math.max(0, Math.min(1, value))`. -/
noncomputable def setMorphValue (value : ℝ) (s : SphereState) : SphereState :=
  { s with config := { s.config with morphValue := max 0 (min 1 value) } }

/-- `setRotationSpeed(speed)`. -/
def setRotationSpeed (speed : ℝ) (s : SphereState) : SphereState :=
  { s with config := { s.config with rotationSpeed := speed } }

/-- `setInteractionRadius(radius)`. -/
def setInteractionRadius (radius : ℝ) (s : SphereState) : SphereState :=
  { s with config := { s.config with interactionRadius := radius } }

/-- `setInteractionStrength(strength)`. -/
def setInteractionStrength (strength : ℝ) (s : SphereState) : SphereState :=
  { s with config := { s.config with interactionStrength := strength } }

/-- `setupEventListeners`: registers the anonymous mousemove wrapper on the
renderer's canvas and the anonymous resize wrapper on the window. -/
def setupEventListeners (s : SphereState) : SphereState :=
  { s with canvasListeners := s.canvasListeners ++ [Handler.mouseMoveWrapper],
           windowListeners := s.windowListeners ++ [Handler.resizeWrapper] }

/-- `dispose()`: disposes renderer and controls and calls
`window.removeEventListener('resize', this.onWindowResize)`; DOM removal
deletes a listener equal to the passed function, so it removes nothing here
because the registered resize listener is the anonymous wrapper. The canvas
mousemove listener and the animation loop are not touched. -/
def dispose (s : SphereState) : SphereState :=
  { s with rendererDisposed := true, controlsDisposed := true,
           windowListeners := s.windowListeners.erase Handler.onWindowResizeMethod }

/-- The instance state right after the constructor and `init()`: default
parameters, particle store created, both listeners registered, animation
loop started. -/
noncomputable def initialState (rand : ℕ → ℝ) : SphereState :=
  let s0 : SphereState :=
    { config := defaultConfig, particles := [], mousePosition := 0,
      isMouseNear := false, canvasListeners := [], windowListeners := [],
      rendererDisposed := false, controlsDisposed := false,
      animationScheduled := false }
  let s1 := createParticles s0 rand
  let s2 := setupEventListeners s1
  { s2 with animationScheduled := true }

/-- `THREE.Ray.distanceToPlane`: `none` models the JS `null` returns. -/
noncomputable def distanceToPlane (normal : Vec3) (constant : ℝ) (origin dir : Vec3) :
    Option ℝ :=
  let denominator := dot3 normal dir
  if denominator = 0 then
    (if dot3 normal origin + constant = 0 then some 0 else none)
  else
    let t := -(dot3 origin normal + constant) / denominator
    if 0 ≤ t then some t else none

/-- `THREE.Ray.intersectPlane`: when `distanceToPlane` is `null` the JS
returns `null` without writing the target vector. -/
noncomputable def intersectPlane (normal : Vec3) (constant : ℝ) (origin dir : Vec3) :
    Option Vec3 :=
  match distanceToPlane normal constant origin dir with
  | none => none
  | some t => some (origin + t • dir)

/-- `onMouseMove`, taking the camera ray already derived from the event:
intersects the ray with the plane `z = 0`; the freshly constructed target
`intersection` starts as the zero vector and keeps it when there is no
intersection; `this.mousePosition.copy(intersection)` runs unconditionally,
and the near flag compares the intersection's distance to the particle
group's position, which is the origin (the group is only ever rotated). -/
noncomputable def onMouseMove (origin dir : Vec3) (s : SphereState) : SphereState :=
  let intersection := (intersectPlane ⟨0, 0, 1⟩ 0 origin dir).getD 0
  { s with mousePosition := intersection,
           isMouseNear :=
             if dist3 intersection 0 < s.config.interactionRadius then true
             else false }

/-- An everywhere-zero stand-in for the stream of `Math.random()` draws. -/
def zeroRand : ℕ → ℝ := fun _ => 0

/-- A running instance whose cached pointer intersection is (1,0,0). -/
noncomputable def pointerState : SphereState where
  config := defaultConfig
  particles := []
  mousePosition := ⟨1, 0, 0⟩
  isMouseNear := false
  canvasListeners := [Handler.mouseMoveWrapper]
  windowListeners := [Handler.resizeWrapper]
  rendererDisposed := false
  controlsDisposed := false
  animationScheduled := true

@[simp] theorem vec_add_x (a b : Vec3) : (a + b).x = a.x + b.x := rfl

@[simp] theorem vec_add_y (a b : Vec3) : (a + b).y = a.y + b.y := rfl

@[simp] theorem vec_add_z (a b : Vec3) : (a + b).z = a.z + b.z := rfl

@[simp] theorem vec_sub_x (a b : Vec3) : (a - b).x = a.x - b.x := rfl

@[simp] theorem vec_sub_y (a b : Vec3) : (a - b).y = a.y - b.y := rfl

@[simp] theorem vec_sub_z (a b : Vec3) : (a - b).z = a.z - b.z := rfl

@[simp] theorem vec_smul_x (c : ℝ) (v : Vec3) : (c • v).x = c * v.x := rfl

@[simp] theorem vec_smul_y (c : ℝ) (v : Vec3) : (c • v).y = c * v.y := rfl

@[simp] theorem vec_smul_z (c : ℝ) (v : Vec3) : (c • v).z = c * v.z := rfl

@[simp] theorem vec_zero_x : (0 : Vec3).x = 0 := rfl

@[simp] theorem vec_zero_y : (0 : Vec3).y = 0 := rfl

@[simp] theorem vec_zero_z : (0 : Vec3).z = 0 := rfl

theorem lerp3_zero (a b : Vec3) : lerp3 a b 0 = a := by
  ext <;> simp [lerp3]

theorem lerp3_one (a b : Vec3) : lerp3 a b 1 = b := by
  ext <;> simp [lerp3]

theorem updateParticle_position (cfg : Config) (near : Bool) (mouse : Vec3) (time : ℝ)
    (p : Particle) :
    (updateParticle cfg near mouse time p).position =
      lerp3 p.position (stepTarget cfg near mouse p) (1 / 20) := by
  simp only [updateParticle]
  repeat' split
  all_goals rfl

theorem updateParticle_originalPosition (cfg : Config) (near : Bool) (mouse : Vec3)
    (time : ℝ) (p : Particle) :
    (updateParticle cfg near mouse time p).originalPosition = p.originalPosition := by
  simp only [updateParticle]
  repeat' split
  all_goals rfl

theorem updateParticle_scatteredPosition (cfg : Config) (near : Bool) (mouse : Vec3)
    (time : ℝ) (p : Particle) :
    (updateParticle cfg near mouse time p).scatteredPosition = p.scatteredPosition := by
  simp only [updateParticle]
  repeat' split
  all_goals rfl

theorem updateParticle_velocity (cfg : Config) (near : Bool) (mouse : Vec3)
    (time : ℝ) (p : Particle) :
    (updateParticle cfg near mouse time p).velocity = p.velocity := by
  simp only [updateParticle]
  repeat' split
  all_goals rfl

theorem updateParticle_targetPosition (cfg : Config) (near : Bool) (mouse : Vec3)
    (time : ℝ) (p : Particle) :
    (updateParticle cfg near mouse time p).targetPosition = p.targetPosition := by
  simp only [updateParticle]
  repeat' split
  all_goals rfl

theorem one_smul3 (v : Vec3) : (1 : ℝ) • v = v := by
  ext <;> simp

theorem smul3_smul3 (c d : ℝ) (v : Vec3) : c • (d • v) = (c * d) • v := by
  ext <;> simp <;> ring

theorem norm3_nonneg (v : Vec3) : 0 ≤ norm3 v := Real.sqrt_nonneg _

theorem dist3_nonneg (a b : Vec3) : 0 ≤ dist3 a b := norm3_nonneg _

theorem norm3_smul (c : ℝ) (v : Vec3) : norm3 (c • v) = |c| * norm3 v := by
  unfold norm3
  rw [show (c • v).x ^ 2 + (c • v).y ^ 2 + (c • v).z ^ 2
        = c ^ 2 * (v.x ^ 2 + v.y ^ 2 + v.z ^ 2) by simp; ring,
    Real.sqrt_mul (sq_nonneg c), Real.sqrt_sq_eq_abs]

theorem lerp3_sub (a t : Vec3) : lerp3 a t (1 / 20) - t = ((19 : ℝ) / 20) • (a - t) := by
  ext <;> simp [lerp3] <;> ring

theorem stepTarget_noNear (cfg : Config) (mouse : Vec3) (p : Particle) :
    stepTarget cfg false mouse p =
      lerp3 p.originalPosition p.scatteredPosition cfg.morphValue := by
  simp [stepTarget]

theorem iterate_noNear_originalPosition (cfg : Config) (mouse : Vec3) (time : ℝ)
    (p : Particle) (n : ℕ) :
    ((updateParticle cfg false mouse time)^[n] p).originalPosition = p.originalPosition := by
  induction n with
  | zero => rfl
  | succ n ih => rw [Function.iterate_succ_apply', updateParticle_originalPosition, ih]

theorem iterate_noNear_scatteredPosition (cfg : Config) (mouse : Vec3) (time : ℝ)
    (p : Particle) (n : ℕ) :
    ((updateParticle cfg false mouse time)^[n] p).scatteredPosition = p.scatteredPosition := by
  induction n with
  | zero => rfl
  | succ n ih => rw [Function.iterate_succ_apply', updateParticle_scatteredPosition, ih]

theorem iterate_noNear_dev (cfg : Config) (mouse : Vec3) (time : ℝ) (p : Particle) (n : ℕ) :
    ((updateParticle cfg false mouse time)^[n] p).position
        - lerp3 p.originalPosition p.scatteredPosition cfg.morphValue
      = ((19 : ℝ) / 20) ^ n •
          (p.position - lerp3 p.originalPosition p.scatteredPosition cfg.morphValue) := by
  induction n with
  | zero => rw [Function.iterate_zero_apply, pow_zero, one_smul3]
  | succ n ih =>
      rw [Function.iterate_succ_apply', updateParticle_position, stepTarget_noNear,
        iterate_noNear_originalPosition, iterate_noNear_scatteredPosition, lerp3_sub, ih,
        smul3_smul3, ← pow_succ']

theorem dist3_iterate_noNear (cfg : Config) (mouse : Vec3) (time : ℝ) (p : Particle)
    (n : ℕ) :
    dist3 ((updateParticle cfg false mouse time)^[n] p).position
        (lerp3 p.originalPosition p.scatteredPosition cfg.morphValue)
      = ((19 : ℝ) / 20) ^ n *
          dist3 p.position (lerp3 p.originalPosition p.scatteredPosition cfg.morphValue) := by
  unfold dist3
  rw [iterate_noNear_dev, norm3_smul, abs_of_nonneg (pow_nonneg (by norm_num) n)]

theorem geom_convergence (D ε : ℝ) (hD : 0 ≤ D) (hε : 0 < ε) :
    ∃ N : ℕ, ∀ n, N ≤ n → ((19 : ℝ) / 20) ^ n * D < ε := by
  rcases eq_or_lt_of_le hD with h0 | hpos
  · exact ⟨0, fun n _ => by rw [← h0, mul_zero]; exact hε⟩
  · obtain ⟨N, hN⟩ :=
      exists_pow_lt_of_lt_one (div_pos hε hpos) (by norm_num : (19 : ℝ) / 20 < 1)
    refine ⟨N, fun n hn => ?_⟩
    calc ((19 : ℝ) / 20) ^ n * D
        ≤ ((19 : ℝ) / 20) ^ N * D :=
          mul_le_mul_of_nonneg_right
            (pow_le_pow_of_le_one (by norm_num) (by norm_num) hn) hD
      _ < ε / D * D := mul_lt_mul_of_pos_right hN hpos
      _ = ε := div_mul_cancel₀ ε (ne_of_gt hpos)

/-- C1: each step computes the particle's target as the per-axis linear
interpolation of `originalPosition` and `scatteredPosition` by `morphValue`
(plus the repulsion offset when interacting) and updates
`position = lerp(position, target, 0.05)`; consequently, with
`morphValue = 0` and no interaction the position comes within any `ε > 0`
of `originalPosition` after sufficiently many frames, and with
`morphValue = 1` within `ε` of `scatteredPosition`. -/
theorem claim_C1_step_and_convergence (cfg : Config) (near : Bool) (mouse : Vec3)
    (time : ℝ) (p : Particle) (ε : ℝ) (hε : 0 < ε) :
    (updateParticle cfg near mouse time p).position
        = lerp3 p.position (stepTarget cfg near mouse p) (1 / 20)
    ∧ (cfg.morphValue = 0 → ∃ N : ℕ, ∀ n, N ≤ n →
        dist3 ((updateParticle cfg false mouse time)^[n] p).position
          p.originalPosition < ε)
    ∧ (cfg.morphValue = 1 → ∃ N : ℕ, ∀ n, N ≤ n →
        dist3 ((updateParticle cfg false mouse time)^[n] p).position
          p.scatteredPosition < ε) := by
  refine ⟨updateParticle_position cfg near mouse time p, ?_, ?_⟩
  · intro h0
    obtain ⟨N, hN⟩ :=
      geom_convergence (dist3 p.position p.originalPosition) ε (dist3_nonneg _ _) hε
    refine ⟨N, fun n hn => ?_⟩
    have key := dist3_iterate_noNear cfg mouse time p n
    rw [h0, lerp3_zero] at key
    rw [key]
    exact hN n hn
  · intro h1
    obtain ⟨N, hN⟩ :=
      geom_convergence (dist3 p.position p.scatteredPosition) ε (dist3_nonneg _ _) hε
    refine ⟨N, fun n hn => ?_⟩
    have key := dist3_iterate_noNear cfg mouse time p n
    rw [h1, lerp3_one] at key
    rw [key]
    exact hN n hn

/-- Witness for C1 at the constructor parameters and a concrete particle. -/
theorem claim_C1_step_and_convergence_witness :
    (0 : ℝ) < 1
    ∧ ((updateParticle defaultConfig false 0 0 sampleParticle).position
        = lerp3 sampleParticle.position (stepTarget defaultConfig false 0 sampleParticle)
            (1 / 20)
    ∧ (defaultConfig.morphValue = 0 → ∃ N : ℕ, ∀ n, N ≤ n →
        dist3 ((updateParticle defaultConfig false 0 0)^[n] sampleParticle).position
          sampleParticle.originalPosition < 1)
    ∧ (defaultConfig.morphValue = 1 → ∃ N : ℕ, ∀ n, N ≤ n →
        dist3 ((updateParticle defaultConfig false 0 0)^[n] sampleParticle).position
          sampleParticle.scatteredPosition < 1)) :=
  ⟨one_pos, claim_C1_step_and_convergence defaultConfig false 0 0 sampleParticle 1 one_pos⟩

theorem dist3_axis (a : ℝ) : dist3 ⟨a, 0, 0⟩ ⟨0, 0, 0⟩ = |a| := by
  simp [dist3, norm3, Real.sqrt_sq_eq_abs]

theorem updateParticle_isInteracting_eq (cfg : Config) (near : Bool) (mouse : Vec3)
    (time : ℝ) (p : Particle) :
    (updateParticle cfg near mouse time p).isInteracting
      = (if near = true then
           (if dist3 p.position mouse < cfg.interactionRadius then true
            else p.isInteracting)
         else false) := by
  by_cases hd : dist3 p.position mouse < cfg.interactionRadius <;>
    cases near <;> cases hb : p.isInteracting <;> simp [updateParticle, hd, hb]

theorem updateParticle_startTime_eq (cfg : Config) (near : Bool) (mouse : Vec3)
    (time : ℝ) (p : Particle) :
    (updateParticle cfg near mouse time p).interactionStartTime
      = (if near = true ∧ dist3 p.position mouse < cfg.interactionRadius then time
         else p.interactionStartTime) := by
  by_cases hd : dist3 p.position mouse < cfg.interactionRadius <;>
    cases near <;> cases hb : p.isInteracting <;> simp [updateParticle, hd, hb]

theorem updateParticle_noNear_isInteracting (cfg : Config) (mouse : Vec3) (time : ℝ)
    (p : Particle) :
    (updateParticle cfg false mouse time p).isInteracting = false := by
  rw [updateParticle_isInteracting_eq]
  simp

theorem updateParticle_hit (cfg : Config) (mouse : Vec3) (time : ℝ) (p : Particle)
    (h : dist3 p.position mouse < cfg.interactionRadius) :
    (updateParticle cfg true mouse time p).isInteracting = true
    ∧ (updateParticle cfg true mouse time p).interactionStartTime = time
    ∧ (updateParticle cfg true mouse time p).emissiveIntensity = 1 / 4
    ∧ (updateParticle cfg true mouse time p).scale = 23 / 20
    ∧ (updateParticle cfg true mouse time p).emissiveColor = 0x4fc3f7 := by
  refine ⟨?_, ?_, ?_, ?_, ?_⟩ <;>
    simp [updateParticle, h, sub_self] <;> norm_num

theorem interactingParticle_dist :
    dist3 interactingParticle.position (0 : Vec3) < defaultConfig.interactionRadius := by
  rw [show interactingParticle.position = (⟨1, 0, 0⟩ : Vec3) from rfl,
    show (0 : Vec3) = ⟨0, 0, 0⟩ from rfl, dist3_axis]
  rw [show defaultConfig.interactionRadius = 3 / 2 from rfl]
  norm_num

theorem farParticle_dist :
    defaultConfig.interactionRadius ≤ dist3 farParticle.position (0 : Vec3) := by
  rw [show farParticle.position = (⟨5, 0, 0⟩ : Vec3) from rfl,
    show (0 : Vec3) = ⟨0, 0, 0⟩ from rfl, dist3_axis]
  rw [show defaultConfig.interactionRadius = 3 / 2 from rfl]
  norm_num

/-- C2 (counterexample): with the global pointer-near flag set, a particle at
distance 5 ≥ interactionRadius = 1.5 that was already marked interacting is
still marked `isInteracting = true` after the step — the claim demands
`false` for every particle outside the radius regardless of the flag. -/
theorem claim_C2_counterexample :
    defaultConfig.interactionRadius ≤ dist3 farParticle.position (0 : Vec3)
    ∧ (updateParticle defaultConfig true 0 0 farParticle).isInteracting = true := by
  refine ⟨farParticle_dist, ?_⟩
  rw [updateParticle_isInteracting_eq, if_pos rfl, if_neg (not_lt.mpr farParticle_dist)]
  rfl

/-- C2 (amended): a particle at distance ≥ `interactionRadius` ends the step
with `isInteracting = false` when the global pointer-near flag is unset; when
the flag is set, such a particle keeps its previous `isInteracting` value
(the inner radius test has no else-branch). -/
theorem claim_C2_amended (cfg : Config) (mouse : Vec3) (time : ℝ) (p : Particle)
    (h : cfg.interactionRadius ≤ dist3 p.position mouse) :
    (updateParticle cfg false mouse time p).isInteracting = false
    ∧ (updateParticle cfg true mouse time p).isInteracting = p.isInteracting := by
  refine ⟨updateParticle_noNear_isInteracting cfg mouse time p, ?_⟩
  rw [updateParticle_isInteracting_eq, if_pos rfl, if_neg (not_lt.mpr h)]

/-- Witness for the amended C2 at the far particle. -/
theorem claim_C2_amended_witness :
    defaultConfig.interactionRadius ≤ dist3 farParticle.position (0 : Vec3)
    ∧ ((updateParticle defaultConfig false 0 0 farParticle).isInteracting = false
       ∧ (updateParticle defaultConfig true 0 0 farParticle).isInteracting
           = farParticle.isInteracting) :=
  ⟨farParticle_dist, claim_C2_amended defaultConfig 0 0 farParticle farParticle_dist⟩

/-- C3 (code bug): `interactionStartTime` is reassigned to the current clock
time on every interacting step, not only on the transition into interaction:
a particle already interacting (start time 0) within the radius gets
`interactionStartTime = 7` at clock time 7, so the pulse phase
`time - interactionStartTime` is always 0 and the pulse is stuck at
`sin 0 * 0.5 + 0.5 = 0.5` (emissive intensity 0.25, scale 1.15). -/
theorem claim_C3_startTime_reassigned :
    interactingParticle.isInteracting = true
    ∧ interactingParticle.interactionStartTime = 0
    ∧ dist3 interactingParticle.position (0 : Vec3) < defaultConfig.interactionRadius
    ∧ (updateParticle defaultConfig true 0 7 interactingParticle).interactionStartTime = 7
    ∧ (updateParticle defaultConfig true 0 7 interactingParticle).emissiveIntensity = 1 / 4
    ∧ (updateParticle defaultConfig true 0 7 interactingParticle).scale = 23 / 20 := by
  have hit := updateParticle_hit defaultConfig 0 7 interactingParticle
    interactingParticle_dist
  exact ⟨rfl, rfl, interactingParticle_dist, hit.2.1, hit.2.2.1, hit.2.2.2.1⟩

/-- C4: the repulsion strength is `(R - d) / R`: strictly decreasing in the
distance, 1 at distance 0, 0 at the radius boundary, and 1/3 for
`interactionRadius = 1.5`, `distance = 1`. -/
theorem claim_C4_strength (R : ℝ) (hR : 0 < R) :
    (∀ d1 d2 : ℝ, d1 < d2 → repulsionStrength R d2 < repulsionStrength R d1)
    ∧ repulsionStrength R 0 = 1
    ∧ repulsionStrength R R = 0
    ∧ repulsionStrength (3 / 2) 1 = 1 / 3 := by
  refine ⟨fun d1 d2 h => ?_, ?_, ?_, ?_⟩
  · exact (div_lt_div_iff_of_pos_right hR).mpr (sub_lt_sub_left h R)
  · rw [repulsionStrength, sub_zero, div_self (ne_of_gt hR)]
  · rw [repulsionStrength, sub_self, zero_div]
  · rw [repulsionStrength]
    norm_num

/-- Witness for C4 at the default interaction radius 1.5. -/
theorem claim_C4_strength_witness :
    (0 : ℝ) < 3 / 2
    ∧ ((∀ d1 d2 : ℝ, d1 < d2 →
          repulsionStrength (3 / 2) d2 < repulsionStrength (3 / 2) d1)
       ∧ repulsionStrength (3 / 2) 0 = 1
       ∧ repulsionStrength (3 / 2) (3 / 2) = 0
       ∧ repulsionStrength (3 / 2) 1 = 1 / 3) :=
  ⟨by norm_num, claim_C4_strength (3 / 2) (by norm_num)⟩

/-- C9 (counterexample): a step on an interacting particle mutates the
material's emissive colour (from the creation value 0x1a4a5e to the
highlight 0x4fc3f7) — a per-frame mutation outside the claim's list of
mutated fields. -/
theorem claim_C9_counterexample :
    interactingParticle.emissiveColor = 0x1a4a5e
    ∧ (updateParticle defaultConfig true 0 7 interactingParticle).emissiveColor = 0x4fc3f7
    ∧ (updateParticle defaultConfig true 0 7 interactingParticle).emissiveColor
        ≠ interactingParticle.emissiveColor := by
  have hit := updateParticle_hit defaultConfig 0 7 interactingParticle
    interactingParticle_dist
  refine ⟨rfl, hit.2.2.2.2, ?_⟩
  rw [hit.2.2.2.2]
  decide

/-- C9 (amended): the step leaves `originalPosition`, `scatteredPosition`,
`velocity` and the stored `userData.targetPosition` unchanged; the mutated
fields are `position`, `isInteracting`, `interactionStartTime`, `scale`,
`emissiveIntensity`, and additionally the emissive colour, which is set to
the highlight hex on interacting frames and untouched otherwise. -/
theorem claim_C9_amended (cfg : Config) (near : Bool) (mouse : Vec3) (time : ℝ)
    (p : Particle) :
    (updateParticle cfg near mouse time p).originalPosition = p.originalPosition
    ∧ (updateParticle cfg near mouse time p).scatteredPosition = p.scatteredPosition
    ∧ (updateParticle cfg near mouse time p).velocity = p.velocity
    ∧ (updateParticle cfg near mouse time p).targetPosition = p.targetPosition
    ∧ (updateParticle cfg near mouse time p).emissiveColor
        = (if (updateParticle cfg near mouse time p).isInteracting then 0x4fc3f7
           else p.emissiveColor) := by
  refine ⟨updateParticle_originalPosition cfg near mouse time p,
    updateParticle_scatteredPosition cfg near mouse time p,
    updateParticle_velocity cfg near mouse time p,
    updateParticle_targetPosition cfg near mouse time p, ?_⟩
  by_cases hd : dist3 p.position mouse < cfg.interactionRadius <;>
    cases near <;> cases hb : p.isInteracting <;> simp [updateParticle, hd, hb]

/-- C10: inside the interaction radius the repulsion offset is well defined:
the scalar that `normalize` divides by (THREE's `length() || 1`) is never
zero, and the step's target is the morph blend plus the finite offset
`direction * strength * interactionStrength`. -/
theorem claim_C10_normalize_welldefined (cfg : Config) (mouse : Vec3) (p : Particle)
    (h : dist3 p.position mouse < cfg.interactionRadius) :
    normDivisor (p.position - mouse) ≠ 0
    ∧ stepTarget cfg true mouse p
        = lerp3 p.originalPosition p.scatteredPosition cfg.morphValue
          + (repulsionStrength cfg.interactionRadius (dist3 p.position mouse)
              * cfg.interactionStrength) • normalize3 (p.position - mouse) := by
  constructor
  · rw [normDivisor]
    split
    · exact one_ne_zero
    · next h' => exact h'
  · rw [stepTarget, if_pos ⟨rfl, h⟩]

/-- Witness for C10 at the interacting particle (distance 1 < 1.5). -/
theorem claim_C10_normalize_welldefined_witness :
    dist3 interactingParticle.position (0 : Vec3) < defaultConfig.interactionRadius
    ∧ (normDivisor (interactingParticle.position - 0) ≠ 0
       ∧ stepTarget defaultConfig true 0 interactingParticle
           = lerp3 interactingParticle.originalPosition
               interactingParticle.scatteredPosition defaultConfig.morphValue
             + (repulsionStrength defaultConfig.interactionRadius
                   (dist3 interactingParticle.position 0)
                 * defaultConfig.interactionStrength) •
                 normalize3 (interactingParticle.position - 0)) :=
  ⟨interactingParticle_dist,
    claim_C10_normalize_welldefined defaultConfig 0 interactingParticle
      interactingParticle_dist⟩

/-- C5: `setParticleCount(n)` leaves exactly `n` particles in the store, all
freshly generated by the creation loop at the new count, and the resulting
state does not depend on the prior particle store. -/
theorem claim_C5_setParticleCount (n : ℕ) (s : SphereState) (rand : ℕ → ℝ)
    (_hn : 0 < n) :
    (setParticleCount n s rand).particles.length = n
    ∧ ((setParticleCount n s rand).particles
        = (List.range n).map (mkParticle { s.config with particleCount := n } rand))
    ∧ (∀ q ∈ (setParticleCount n s rand).particles,
        ∃ i, i < n ∧ q = mkParticle { s.config with particleCount := n } rand i)
    ∧ (∀ prior : List Particle,
        setParticleCount n { s with particles := prior } rand
          = setParticleCount n s rand) := by
  refine ⟨?_, ?_, ?_, ?_⟩
  · simp [setParticleCount, recreateParticles, createParticles]
  · simp [setParticleCount, recreateParticles, createParticles]
  · intro q hq
    simp only [setParticleCount, recreateParticles, createParticles,
      List.nil_append, List.mem_map, List.mem_range] at hq
    obtain ⟨i, hi, hqi⟩ := hq
    exact ⟨i, hi, hqi.symm⟩
  · intro prior
    cases s
    rfl

/-- Witness for C5 at `n = 3` on a freshly constructed instance. -/
theorem claim_C5_setParticleCount_witness :
    0 < 3
    ∧ ((setParticleCount 3 (initialState zeroRand) zeroRand).particles.length = 3
    ∧ ((setParticleCount 3 (initialState zeroRand) zeroRand).particles
        = (List.range 3).map
            (mkParticle { (initialState zeroRand).config with particleCount := 3 }
              zeroRand))
    ∧ (∀ q ∈ (setParticleCount 3 (initialState zeroRand) zeroRand).particles,
        ∃ i, i < 3 ∧ q = mkParticle
          { (initialState zeroRand).config with particleCount := 3 } zeroRand i)
    ∧ (∀ prior : List Particle,
        setParticleCount 3 { initialState zeroRand with particles := prior } zeroRand
          = setParticleCount 3 (initialState zeroRand) zeroRand)) :=
  ⟨by norm_num,
    claim_C5_setParticleCount 3 (initialState zeroRand) zeroRand (by norm_num)⟩

/-- C6 (code bug): after `dispose()` both registered listeners remain
attached — the canvas mousemove listener is never removed, and the resize
removal passes the method reference rather than the registered anonymous
wrapper, so it removes nothing. The setters called afterwards are total,
mutate only their own parameter, and never restart the frame loop. -/
theorem claim_C6_dispose (rand : ℕ → ℝ) :
    (dispose (initialState rand)).canvasListeners = [Handler.mouseMoveWrapper]
    ∧ (dispose (initialState rand)).windowListeners = [Handler.resizeWrapper]
    ∧ (∀ v : ℝ, (setMorphValue v (dispose (initialState rand))).animationScheduled
          = (dispose (initialState rand)).animationScheduled
        ∧ (setMorphValue v (dispose (initialState rand))).windowListeners
          = (dispose (initialState rand)).windowListeners
        ∧ (setMorphValue v (dispose (initialState rand))).particles
          = (dispose (initialState rand)).particles)
    ∧ (∀ r : ℝ, (setInteractionRadius r (dispose (initialState rand))).animationScheduled
          = (dispose (initialState rand)).animationScheduled)
    ∧ (∀ st : ℝ,
        (setInteractionStrength st (dispose (initialState rand))).animationScheduled
          = (dispose (initialState rand)).animationScheduled)
    ∧ (∀ sp : ℝ, (setRotationSpeed sp (dispose (initialState rand))).animationScheduled
          = (dispose (initialState rand)).animationScheduled)
    ∧ (∀ n : ℕ, ∀ rand2 : ℕ → ℝ,
        (setParticleCount n (dispose (initialState rand)) rand2).animationScheduled
          = (dispose (initialState rand)).animationScheduled) :=
  ⟨rfl, rfl, fun _ => ⟨rfl, rfl, rfl⟩, fun _ => rfl, fun _ => rfl, fun _ => rfl,
    fun _ _ => rfl⟩

/-- C7: `setMorphValue(v)` stores exactly `min(1, max(0, v))` — the input
clamped to [0,1] — and the clamped extremes coincide as whole states:
`setMorphValue(-5)` equals `setMorphValue(0)` and `setMorphValue(5)` equals
`setMorphValue(1)`. -/
theorem claim_C7_setMorphValue (v : ℝ) (s : SphereState) :
    (setMorphValue v s).config.morphValue = min 1 (max 0 v)
    ∧ setMorphValue (-5) s = setMorphValue 0 s
    ∧ setMorphValue 5 s = setMorphValue 1 s := by
  refine ⟨?_, ?_, ?_⟩
  · show max 0 (min 1 v) = min 1 (max 0 v)
    rw [max_min_distrib_left, max_eq_right zero_le_one]
  · cases s
    simp only [setMorphValue, SphereState.mk.injEq, Config.mk.injEq]
    norm_num
  · cases s
    simp only [setMorphValue, SphereState.mk.injEq, Config.mk.injEq]
    norm_num

/-- C8 (counterexample): with the cached intersection at (1,0,0), a pointer
ray parallel to the plane (origin (0,0,5), direction (1,0,0)) does not
retain the previous value: `mousePosition` is overwritten with the zero
vector left in the scratch intersection target. -/
theorem claim_C8_counterexample :
    dot3 ⟨0, 0, 1⟩ ⟨1, 0, 0⟩ = 0
    ∧ intersectPlane ⟨0, 0, 1⟩ 0 ⟨0, 0, 5⟩ ⟨1, 0, 0⟩ = none
    ∧ pointerState.mousePosition = ⟨1, 0, 0⟩
    ∧ (onMouseMove ⟨0, 0, 5⟩ ⟨1, 0, 0⟩ pointerState).mousePosition = ⟨0, 0, 0⟩
    ∧ (onMouseMove ⟨0, 0, 5⟩ ⟨1, 0, 0⟩ pointerState).mousePosition
        ≠ pointerState.mousePosition := by
  have hplane : intersectPlane ⟨0, 0, 1⟩ 0 ⟨0, 0, 5⟩ ⟨1, 0, 0⟩ = none := by
    simp [intersectPlane, distanceToPlane, dot3]
  have hmp : (onMouseMove ⟨0, 0, 5⟩ ⟨1, 0, 0⟩ pointerState).mousePosition
      = ⟨0, 0, 0⟩ := by
    simp [onMouseMove, hplane]
    rfl
  refine ⟨by simp [dot3], hplane, rfl, hmp, ?_⟩
  rw [hmp, show pointerState.mousePosition = (⟨1, 0, 0⟩ : Vec3) from rfl]
  simp [Vec3.mk.injEq]

/-- C8 (amended): when the pointer ray is parallel to the reference plane
and its origin is off the plane, `intersectPlane` yields no intersection,
the unwritten scratch target stays the zero vector, and the handler
unconditionally copies it into `mousePosition` — the handler is total (no
failure) but the previous cached value is overwritten with (0,0,0), not
retained. -/
theorem claim_C8_amended (origin dir : Vec3) (s : SphereState)
    (hpar : dot3 ⟨0, 0, 1⟩ dir = 0) (hoff : dot3 ⟨0, 0, 1⟩ origin + 0 ≠ 0) :
    (onMouseMove origin dir s).mousePosition = ⟨0, 0, 0⟩ := by
  have hoff' : dot3 ⟨0, 0, 1⟩ origin ≠ 0 := by simpa using hoff
  have hplane : intersectPlane ⟨0, 0, 1⟩ 0 origin dir = none := by
    simp [intersectPlane, distanceToPlane, hpar, hoff']
  simp [onMouseMove, hplane]
  rfl

/-- Witness for the amended C8 at the parallel ray used in the
counterexample state. -/
theorem claim_C8_amended_witness :
    dot3 ⟨0, 0, 1⟩ ⟨1, 0, 0⟩ = 0
    ∧ dot3 ⟨0, 0, 1⟩ ⟨0, 0, 5⟩ + 0 ≠ 0
    ∧ (onMouseMove ⟨0, 0, 5⟩ ⟨1, 0, 0⟩ pointerState).mousePosition = ⟨0, 0, 0⟩ :=
  ⟨by simp [dot3], by norm_num [dot3],
    claim_C8_amended ⟨0, 0, 5⟩ ⟨1, 0, 0⟩ pointerState (by simp [dot3])
      (by norm_num [dot3])⟩
